import Mathlib

/-!
Verification development for the WebScrapeToolkit repository.

This file gives a shallow embedding, in Lean 4, of the parts of the
repository that the specification's claims are about:

* web_scraper.py      — robots gate, fetcher, HTML extractors, scrape_page;
* ai_enhanced_scraper.py — the six AI analysis steps and their orchestration;
* ai_integration_guide.py — SimpleAIEnhancedScraper.scrape_with_summary;
* utils.py            — URL validation / domain extraction;
* chatbot.py          — intent classification and the scrape handler's
                        session-state updates.

External collaborators (the HTTP transport, BeautifulSoup's parser, the
urllib robots parser, the LLM providers, the database layer) are modelled
as explicit environment values: a fetch outcome, an already-parsed DOM,
a robots answer, and per-step provider responses.  Machine floats in the
source only ever carry exact literals and provider-returned numbers, so
they are modelled as rationals.
-/

namespace WebScrape

/-! ## Python string primitives

The cleaning code in web_scraper.py uses str.strip / str.splitlines /
str.split("  ") / ' '.join.  These are modelled character-exactly over
ASCII whitespace (Python's str.strip with no argument removes space,
tab, newline, carriage return, vertical tab and form feed; the unicode
whitespace extension is irrelevant to the claims). -/

/-- Whitespace characters stripped by Python's str.strip(). -/
def isPyWs (c : Char) : Bool :=
  c = ' ' || c = '\t' || c = '\n' || c = '\r' || c = '\x0b' || c = '\x0c'

/-- Python truthiness of an optional string (None and "" are falsy). -/
def pyTruthyOptStr : Option String → Bool
  | none => false
  | some s => !s.isEmpty

/-- Drop trailing Python-whitespace characters from a character list. -/
def dropTrailingWs : List Char → List Char
  | [] => []
  | c :: rest =>
    let r := dropTrailingWs rest
    if r.isEmpty && isPyWs c then [] else c :: r

/-- Python str.strip() on a character list. -/
def pyStripL (l : List Char) : List Char :=
  dropTrailingWs (l.dropWhile isPyWs)

/-- Python str.strip() on strings. -/
def pyStrip (s : String) : String :=
  ⟨pyStripL s.data⟩

/-- Line-boundary characters of Python's str.splitlines(). -/
def isPyLineBreak (c : Char) : Bool :=
  c = '\n' || c = '\r' || c = '\x0b' || c = '\x0c'
    || c = '\x1c' || c = '\x1d' || c = '\x1e' || c = '\x85'
    || c = '\u2028' || c = '\u2029'

/-- Python str.splitlines(): split at every line boundary, treating
    "\r\n" as one boundary.  As in Python, a trailing boundary does not
    produce a trailing empty line, and the empty string yields no
    lines. -/
def pySplitlines : List Char → List (List Char)
  | [] => []
  | '\r' :: '\n' :: rest => [] :: pySplitlines rest
  | c :: rest =>
    if isPyLineBreak c then [] :: pySplitlines rest
    else
      match pySplitlines rest with
      | [] => [[c]]
      | p :: ps => (c :: p) :: ps

/-- Python line.split("  "): split at each non-overlapping occurrence of
    two consecutive spaces, scanning left to right. -/
def pySplitTwoSpaces : List Char → List (List Char)
  | [] => [[]]
  | [c] => [[c]]
  | c :: d :: rest =>
    if c = ' ' ∧ d = ' ' then [] :: pySplitTwoSpaces rest
    else
      match pySplitTwoSpaces (d :: rest) with
      | [] => [[c]]
      | p :: ps => (c :: p) :: ps

/-- Python ' '.join on character lists. -/
def pyJoinSp : List (List Char) → List Char
  | [] => []
  | [p] => p
  | p :: ps => p ++ ' ' :: pyJoinSp ps

/-! ## HTML document model

BeautifulSoup's parse tree is modelled as a list of nodes; parsing
itself (parse_html) is an external collaborator, so the environment
supplies the already-parsed tree.  get_text concatenates the text nodes
in document order. -/

/-- A parsed HTML node: a text node, or an element with a tag, an
    attribute list and children. -/
inductive Node where
  | text (s : String)
  | elem (tag : String) (attrs : List (String × String)) (children : List Node)

mutual

/-- Text of one node: BeautifulSoup's get_text over a single node. -/
def nodeText : Node → List Char
  | .text s => s.data
  | .elem _ _ cs => nodesText cs

/-- Text of a node list (document order). -/
def nodesText : List Node → List Char
  | [] => []
  | n :: ns => nodeText n ++ nodesText ns

end

mutual

/-- Decompose every script / style element (web_scraper.py lines
    213-215): the whole subtree of such an element is removed. -/
def stripScriptStyle : Node → Option Node
  | .text s => some (.text s)
  | .elem t a cs =>
    if t = "script" || t = "style" then none
    else some (.elem t a (stripScriptStyleList cs))

/-- stripScriptStyle mapped over a node list. -/
def stripScriptStyleList : List Node → List Node
  | [] => []
  | n :: ns =>
    match stripScriptStyle n with
    | some n' => n' :: stripScriptStyleList ns
    | none => stripScriptStyleList ns

end

/-- The text-cleaning pipeline of WebScraper.extract_text (web_scraper.py
    lines 220-224): lines = (line.strip() for line in text.splitlines());
    chunks = (phrase.strip() for line in lines for phrase in
    line.split("  ")); ' '.join(chunk for chunk in chunks if chunk). -/
def cleanScrapedText (t : List Char) : List Char :=
  let lines := (pySplitlines t).map pyStripL
  let chunks := (lines.map pySplitTwoSpaces).flatten.map pyStripL
  pyJoinSp (chunks.filter (fun c => !c.isEmpty))

/-- WebScraper.extract_text (web_scraper.py lines 197-230): optionally
    decompose script/style elements, take get_text, optionally clean. -/
def extract_text (soup : List Node) (cleanFlag removeScripts : Bool) : String :=
  let soup' := if removeScripts then stripScriptStyleList soup else soup
  let t := nodesText soup'
  if cleanFlag then ⟨cleanScrapedText t⟩ else ⟨t⟩

/-- Modelled from the spec's words, for comparison with the source's
    extract_text (refinement target, not source code): collapse every
    run of whitespace characters (including newlines) into a single
    space and trim both ends. -/
def specCollapseWs (s : String) : String :=
  ⟨pyJoinSp ((wsSplit s.data).filter (fun c => !c.isEmpty))⟩
where
  /-- Split a character list at every single whitespace character. -/
  wsSplit : List Char → List (List Char)
  | [] => [[]]
  | c :: rest =>
    if isPyWs c then [] :: wsSplit rest
    else
      match wsSplit rest with
      | [] => [[c]]
      | p :: ps => (c :: p) :: ps

/-- Substring test on character lists (used for Python's `in` operator
    on strings and for locating "://"). -/
def strContainsL : List Char → List Char → Bool
  | [], sub => sub.isEmpty
  | c :: rest, sub => sub.isPrefixOf (c :: rest) || strContainsL rest sub

/-- Python's `sub in s` on strings. -/
def strContains (s sub : String) : Bool :=
  strContainsL s.data sub.data

/-- Python str.lower() for the ASCII strings handled here. -/
def pyLower (s : String) : String :=
  ⟨s.data.map Char.toLower⟩

/-- Python s.startswith(pre). -/
def pyStartsWith (s pre : String) : Bool :=
  pre.data.isPrefixOf s.data

/-- Replacement loop of Python str.replace for a non-empty pattern;
    fuel equal to the input length suffices since every step consumes at
    least one character. -/
def pyReplaceAllAux (pat rep : List Char) : Nat → List Char → List Char
  | _, [] => []
  | 0, l => l
  | fuel + 1, c :: rest =>
    if pat.isPrefixOf (c :: rest) && !pat.isEmpty then
      rep ++ pyReplaceAllAux pat rep fuel ((c :: rest).drop pat.length)
    else c :: pyReplaceAllAux pat rep fuel rest

/-- Python s.replace(pat, rep) for a non-empty pattern. -/
def pyReplaceAll (s pat rep : String) : String :=
  ⟨pyReplaceAllAux pat.data rep.data s.data.length s.data⟩

/-- Python s.split(" ") on character lists. -/
def pySplitSpacesL : List Char → List (List Char)
  | [] => [[]]
  | c :: rest =>
    if c = ' ' then [] :: pySplitSpacesL rest
    else
      match pySplitSpacesL rest with
      | [] => [[c]]
      | p :: ps => (c :: p) :: ps

/-- Python s.split(" ") on strings. -/
def pySplitSpaces (s : String) : List String :=
  (pySplitSpacesL s.data).map String.mk

/-- Split a character list at the first occurrence of a separator,
    returning the parts before and after it (none if absent). -/
def splitFirstOn : List Char → List Char → Option (List Char × List Char)
  | [], _ => none
  | c :: rest, sep =>
    if sep.isPrefixOf (c :: rest) then some ([], (c :: rest).drop sep.length)
    else
      match splitFirstOn rest sep with
      | some (pre, post) => some (c :: pre, post)
      | none => none

mutual

/-- BeautifulSoup get_text(strip=True) over one node: concatenation of
    the stripped text-node strings in document order. -/
def nodeTextStrip : Node → List Char
  | .text s => pyStripL s.data
  | .elem _ _ cs => nodesTextStrip cs

/-- nodeTextStrip over a node list. -/
def nodesTextStrip : List Node → List Char
  | [] => []
  | n :: ns => nodeTextStrip n ++ nodesTextStrip ns

end

mutual

/-- BeautifulSoup find_all with a predicate on tag and attributes:
    pre-order traversal collecting every matching element, including
    elements nested inside other matches. -/
def findElems (p : String → List (String × String) → Bool) : Node → List Node
  | .text _ => []
  | .elem t a cs =>
    (if p t a then [Node.elem t a cs] else []) ++ findElemsList p cs

/-- findElems over a node list (document order). -/
def findElemsList (p : String → List (String × String) → Bool) : List Node → List Node
  | [] => []
  | n :: ns => findElems p n ++ findElemsList p ns

end

/-- Attribute list of an element node (empty for text nodes). -/
def nodeAttrs : Node → List (String × String)
  | .text _ => []
  | .elem _ a _ => a

/-! ## urllib.parse models

urljoin and urlparse are external library functions; they are modelled
here for the http/https URLs this program feeds them (doc comments note
the restriction).  No claim depends on the fine points of either. -/

/-- Scheme part of an absolute URL (text before "://", else ""). -/
def urlSchemeOf (u : String) : String :=
  match splitFirstOn u.data "://".data with
  | some (s, _) => ⟨s⟩
  | none => ""

/-- Origin (scheme://host) of an absolute URL; the input itself when it
    has no "://". -/
def urlOriginOf (u : String) : String :=
  match splitFirstOn u.data "://".data with
  | some (s, rest) =>
    String.mk s ++ "://" ++ String.mk (rest.takeWhile (fun c => c != '/' && c != '?' && c != '#'))
  | none => u

/-- Directory prefix of an absolute URL: everything up to and including
    the last slash of its path ("origin/" when the path has none). -/
def urlDirOf (u : String) : String :=
  match splitFirstOn u.data "://".data with
  | some (s, rest) =>
    let host := rest.takeWhile (fun c => c != '/' && c != '?' && c != '#')
    let path := (rest.drop host.length).takeWhile (fun c => c != '?' && c != '#')
    let dir := (path.reverse.dropWhile (fun c => c != '/')).reverse
    String.mk s ++ "://" ++ String.mk host ++ (if dir.isEmpty then "/" else String.mk dir)
  | none => u

/-- Model of urllib.parse.urljoin for the cases arising here: an
    absolute reference passes through, "//"-references adopt the base's
    scheme, "/"-rooted references adopt its origin, other relative
    references resolve against the base path's directory. -/
def urljoin (base rel : String) : String :=
  if rel.isEmpty then base
  else if strContains rel "://" then rel
  else if pyStartsWith rel "//" then urlSchemeOf base ++ ":" ++ rel
  else if pyStartsWith rel "/" then urlOriginOf base ++ rel
  else urlDirOf base ++ rel

/-! ## web_scraper.py extractors -/

/-- One extracted link record (web_scraper.py lines 256-261). -/
structure LinkData where
  url : String
  text : String
  title : String
  target : String

/-- WebScraper.extract_links (web_scraper.py lines 232-268): every
    anchor with an href; text is get_text(strip=True); hrefs that do not
    start with http://, https://, mailto: or tel: are resolved against
    the non-empty base URL. -/
def extract_links (soup : List Node) (base_url : String) : List LinkData :=
  (findElemsList (fun t a => t = "a" && (a.lookup "href").isSome) soup).map fun n =>
    let href := ((nodeAttrs n).lookup "href").getD ""
    let txt : String := ⟨nodeTextStrip n⟩
    let resolved :=
      if !base_url.isEmpty
          && !(pyStartsWith href "http://" || pyStartsWith href "https://"
               || pyStartsWith href "mailto:" || pyStartsWith href "tel:") then
        urljoin base_url href
      else href
    { url := resolved
      text := txt
      title := ((nodeAttrs n).lookup "title").getD ""
      target := ((nodeAttrs n).lookup "target").getD "" }

/-- One extracted image record (web_scraper.py lines 297-303). -/
structure ImageData where
  src : String
  alt : String
  title : String
  width : String
  height : String

/-- WebScraper.extract_images (web_scraper.py lines 270-310): every img
    with a non-empty src; src not starting with http://, https:// or
    data: is resolved against the non-empty base URL. -/
def extract_images (soup : List Node) (base_url : String) : List ImageData :=
  ((findElemsList (fun t _ => t = "img") soup).filterMap fun n =>
    let src := ((nodeAttrs n).lookup "src").getD ""
    if src.isEmpty then none
    else
      let resolved :=
        if !base_url.isEmpty
            && !(pyStartsWith src "http://" || pyStartsWith src "https://"
                 || pyStartsWith src "data:") then
          urljoin base_url src
        else src
      some { src := resolved
             alt := ((nodeAttrs n).lookup "alt").getD ""
             title := ((nodeAttrs n).lookup "title").getD ""
             width := ((nodeAttrs n).lookup "width").getD ""
             height := ((nodeAttrs n).lookup "height").getD "" })

/-- Python dict assignment d[k] = v on an insertion-ordered association
    list: replace in place when the key exists, append otherwise. -/
def pyDictSetS (d : List (String × String)) (k v : String) : List (String × String) :=
  if d.any (fun kv => kv.1 = k) then d.map (fun kv => if kv.1 = k then (k, v) else kv)
  else d ++ [(k, v)]

/-- WebScraper.extract_metadata (web_scraper.py lines 312-358): page
    title, meta tags keyed meta_{name} / property_{property} (names
    lowercased), Open Graph tags additionally keyed og_{suffix}
    (original case, "og:" occurrences removed), canonical link href. -/
def extract_metadata (soup : List Node) : List (String × String) :=
  let md : List (String × String) := []
  let md :=
    match findElemsList (fun t _ => t = "title") soup with
    | [] => md
    | n :: _ => pyDictSetS md "title" ⟨nodeTextStrip n⟩
  let md := (findElemsList (fun t _ => t = "meta") soup).foldl (fun md n =>
    let name := pyLower (((nodeAttrs n).lookup "name").getD "")
    let prop := pyLower (((nodeAttrs n).lookup "property").getD "")
    let content := ((nodeAttrs n).lookup "content").getD ""
    if !name.isEmpty && !content.isEmpty then pyDictSetS md ("meta_" ++ name) content
    else if !prop.isEmpty && !content.isEmpty then pyDictSetS md ("property_" ++ prop) content
    else md) md
  let md := (findElemsList (fun t a =>
      t = "meta" && (match a.lookup "property" with
                     | some p => !p.isEmpty && pyStartsWith p "og:"
                     | none => false)) soup).foldl (fun md n =>
    let p := ((nodeAttrs n).lookup "property").getD ""
    let propName := pyReplaceAll p "og:" ""
    let content := ((nodeAttrs n).lookup "content").getD ""
    if !propName.isEmpty && !content.isEmpty then pyDictSetS md ("og_" ++ propName) content
    else md) md
  let md :=
    match findElemsList (fun t a =>
        t = "link" && (match a.lookup "rel" with
                       | some r => (pySplitSpaces r).contains "canonical"
                       | none => false)) soup with
    | [] => md
    | n :: _ => pyDictSetS md "canonical_url" (((nodeAttrs n).lookup "href").getD "")
  md

/-! ## Environment, robots gate, fetcher, scrape_page -/

/-- Outcome of the robots.txt check's interaction with the world: the
    urllib robots parser either raised somewhere inside the try block
    (network failure, parse failure), or completed and answered
    can_fetch for the configured user agent. -/
inductive RobotsOutcome where
  | raised
  | canFetch (allowed : Bool)

/-- Outcome of the HTTP GET for the target page: a timeout, a connection
    failure, or a response carrying a final status code and a parsed
    body. -/
inductive TransportOutcome where
  | timeout
  | connectionError
  | response (status : Nat) (body : List Node)

/-- The world one scrape interacts with. -/
structure WebEnv where
  robots : RobotsOutcome
  transport : TransportOutcome

/-- WebScraper._check_robots_txt (web_scraper.py lines 103-138): skipped
    entirely when respect_robots is off; any raised error fails open
    (returns allowed); otherwise the parser's can_fetch answer. -/
def check_robots_txt (respect_robots : Bool) (env : WebEnv) : Bool :=
  if !respect_robots then true
  else
    match env.robots with
    | .raised => true
    | .canFetch allowed => allowed

/-- WebScraper.fetch_page (web_scraper.py lines 140-175): robots
    disallow aborts with None; a timeout or connection error is caught
    as a RequestException and yields None; raise_for_status turns a
    4xx/5xx final status into an HTTPError, also yielding None;
    otherwise the response is returned. -/
def fetch_page (respect_robots : Bool) (env : WebEnv) : Option (Nat × List Node) :=
  if !check_robots_txt respect_robots env then none
  else
    match env.transport with
    | .timeout => none
    | .connectionError => none
    | .response status body =>
      if 400 ≤ status ∧ status < 600 then none else some (status, body)

/-- ScrapingResult (web_scraper.py lines 19-31). -/
structure ScrapingResult where
  url : String
  status_code : Nat
  title : Option String := none
  text_content : Option String := none
  links : Option (List LinkData) := none
  images : Option (List ImageData) := none
  metadata : Option (List (String × String)) := none
  error : Option String := none

/-- WebScraper.scrape_page (web_scraper.py lines 360-415): a failed
    fetch yields status_code 0 and the fixed error string; a successful
    fetch runs the extractors selected by the flags, surfacing the
    metadata title as the result's title field. -/
def scrape_page (respect_robots : Bool) (env : WebEnv) (url : String)
    (wantText wantLinks wantImages wantMetadata : Bool) : ScrapingResult :=
  match fetch_page respect_robots env with
  | none => { url := url, status_code := 0, error := some "Failed to fetch page" }
  | some (status, soup) =>
    let r0 : ScrapingResult := { url := url, status_code := status }
    let r1 := if wantText then { r0 with text_content := some (extract_text soup true true) } else r0
    let r2 := if wantLinks then { r1 with links := some (extract_links soup url) } else r1
    let r3 := if wantImages then { r2 with images := some (extract_images soup url) } else r2
    if wantMetadata then
      let md := extract_metadata soup
      let r4 := { r3 with metadata := some md }
      match md.lookup "title" with
      | some t => { r4 with title := some t }
      | none => r4
    else r3

/-! ## ai_enhanced_scraper.py — the six AI analysis steps

Each step issues at most one provider call inside its own try/except.
The two provider branches (OpenAI / Anthropic) differ only in wire
format, so one abstract call per step suffices: the environment supplies
the step's outcome.  For the JSON-returning steps the outcome is
characterised by what json.loads makes of the response text — the call
raised, the text failed to parse (json.loads raises, caught by the
step's except), or it parsed to a Python value.  For the quality step
the outcome is likewise characterised through float(): raised,
non-numeric (ValueError, caught), or a number. -/

/-- A Python value as produced by json.loads. -/
inductive PyVal where
  | num (q : ℚ)
  | str (s : String)
  | bool (b : Bool)
  | null
  | list (l : List PyVal)
  | dict (d : List (String × PyVal))

/-- One behaviour of the configured provider across the six steps. -/
structure ProviderBehavior where
  summarizeResp : Except Unit String
  sentimentResp : Except Unit (Option PyVal)
  categorizeResp : Except Unit String
  entitiesResp : Except Unit (Option PyVal)
  languageResp : Except Unit String
  qualityResp : Except Unit (Option ℚ)

/-- The fixed closed category list of categorize_content
    (ai_enhanced_scraper.py lines 212-217). -/
def contentCategories : List String :=
  ["News & Current Events", "Technology & Science", "Business & Finance",
   "Entertainment & Media", "Sports", "Health & Medical", "Education",
   "Travel & Lifestyle", "Politics & Government", "E-commerce & Shopping",
   "Blog & Personal", "Reference & Documentation", "Other"]

/-- AIEnhancedScraper.summarize_content (lines 88-142): guard on a
    missing client or whitespace-only text returns ""; a raised provider
    error is caught and returns ""; otherwise the provider's summary
    string (stripped on the OpenAI branch — folded into the outcome). -/
def summarize_content (ai_client : Bool) (b : ProviderBehavior) (text : String) : String :=
  if !ai_client || (pyStrip text).isEmpty then ""
  else
    match b.summarizeResp with
    | .ok s => s
    | .error _ => ""

/-- Neutral sentiment value {"score": 0.0, "confidence": 0.0}. -/
def neutralSentiment : PyVal :=
  .dict [("score", .num 0), ("confidence", .num 0)]

/-- AIEnhancedScraper.analyze_sentiment (lines 144-193): guard or any
    exception inside the try (provider error, json.loads parse error)
    yields the neutral dict; a successfully parsed response is returned
    as-is, whatever Python value it is. -/
def analyze_sentiment (ai_client : Bool) (b : ProviderBehavior) (text : String) : PyVal :=
  if !ai_client || (pyStrip text).isEmpty then neutralSentiment
  else
    match b.sentimentResp with
    | .error _ => neutralSentiment
    | .ok none => neutralSentiment
    | .ok (some v) => v

/-- AIEnhancedScraper.categorize_content (lines 195-251): guard or a
    raised error yields "Unknown"; otherwise the provider's stripped
    response text, returned without membership check against the
    category list. -/
def categorize_content (ai_client : Bool) (b : ProviderBehavior)
    (text _title : String) : String :=
  if !ai_client || (pyStrip text).isEmpty then "Unknown"
  else
    match b.categorizeResp with
    | .ok s => s
    | .error _ => "Unknown"

/-- Default entity map with the four canonical keys. -/
def emptyEntities : PyVal :=
  .dict [("people", .list []), ("places", .list []),
         ("organizations", .list []), ("other", .list [])]

/-- AIEnhancedScraper.extract_entities (lines 253-302): guard, provider
    error or parse error yields the empty entity map; a successfully
    parsed response is returned as-is. -/
def extract_entities (ai_client : Bool) (b : ProviderBehavior) (text : String) : PyVal :=
  if !ai_client || (pyStrip text).isEmpty then emptyEntities
  else
    match b.entitiesResp with
    | .error _ => emptyEntities
    | .ok none => emptyEntities
    | .ok (some v) => v

/-- AIEnhancedScraper.detect_language (lines 304-352): guard or raised
    error yields "unknown"; otherwise the provider's stripped response. -/
def detect_language (ai_client : Bool) (b : ProviderBehavior) (text : String) : String :=
  if !ai_client || (pyStrip text).isEmpty then "unknown"
  else
    match b.languageResp with
    | .ok s => s
    | .error _ => "unknown"

/-- AIEnhancedScraper.analyze_content_quality (lines 354-402): guard,
    provider error, or non-numeric output (float() raises ValueError,
    caught) yields 0.0; otherwise the parsed number, unclamped. -/
def analyze_content_quality (ai_client : Bool) (b : ProviderBehavior) (text : String) : ℚ :=
  if !ai_client || (pyStrip text).isEmpty then 0
  else
    match b.qualityResp with
    | .ok (some q) => q
    | .ok none => 0
    | .error _ => 0

/-- AIAnalysisResult (ai_enhanced_scraper.py lines 15-25); sentiment
    score/confidence hold whatever dict.get returned, so they are raw
    Python values here, as are the extracted entities. -/
structure AIAnalysisResult where
  summary : Option String := none
  sentiment_score : Option PyVal := none
  sentiment_confidence : Option PyVal := none
  key_topics : Option (List String) := none
  content_category : Option String := none
  extracted_entities : Option PyVal := none
  readability_score : Option ℚ := none
  language_detected : Option String := none

/-- Python d.get(key, default): a dict answers with the stored value or
    the default; any other value has no get attribute and raises
    AttributeError. -/
def pyDictGet (v : PyVal) (key : String) (dflt : PyVal) : Except Unit PyVal :=
  match v with
  | .dict d => .ok ((d.lookup key).getD dflt)
  | _ => .error ()

/-- Total variant of pyDictGet used to state theorems: the value a
    successful get returns (meaningful only when the subject is a dict). -/
def pyValGetD (v : PyVal) (key : String) (dflt : PyVal) : PyVal :=
  match v with
  | .dict d => (d.lookup key).getD dflt
  | _ => dflt

/-- AI-analysis phase of AIEnhancedScraper.scrape_with_ai_analysis
    (lines 404-449): empty result when the scrape failed, no client is
    configured, or the text is empty; otherwise the six steps run in
    order inside one try block.  The only raise points inside that block
    are the two dict.get calls on the sentiment data: when sentiment
    parsing produced a non-dict value, the outer except fires and the
    partially filled result is returned. -/
def scrape_with_ai_analysis_ai (ai_client : Bool) (b : ProviderBehavior)
    (sr : ScrapingResult) : AIAnalysisResult :=
  if sr.error.isSome || !ai_client || !pyTruthyOptStr sr.text_content then {}
  else
    let text := sr.text_content.getD ""
    let title := sr.title.getD ""
    let r1 : AIAnalysisResult := { summary := some (summarize_content ai_client b text) }
    let sd := analyze_sentiment ai_client b text
    match pyDictGet sd "score" (.num 0) with
    | .error _ => r1
    | .ok sc =>
      let r2 := { r1 with sentiment_score := some sc }
      match pyDictGet sd "confidence" (.num 0) with
      | .error _ => r2
      | .ok cf =>
        { r2 with
          sentiment_confidence := some cf
          content_category := some (categorize_content ai_client b text title)
          extracted_entities := some (extract_entities ai_client b text)
          language_detected := some (detect_language ai_client b text)
          readability_score := some (analyze_content_quality ai_client b text) }

/-- Number of provider calls one step issues: one unless its own guard
    (no client / whitespace-only text) short-circuits. -/
def stepProviderCalls (ai_client : Bool) (text : String) : Nat :=
  if !ai_client || (pyStrip text).isEmpty then 0 else 1

/-- Provider calls issued along the control path of
    scrape_with_ai_analysis's AI phase: none at all when the initial
    guard returns the empty result; otherwise summarize and sentiment
    run, and the four remaining steps run only if the sentiment
    dict.get calls did not raise. -/
def scrapeAIProviderCalls (ai_client : Bool) (b : ProviderBehavior)
    (sr : ScrapingResult) : Nat :=
  if sr.error.isSome || !ai_client || !pyTruthyOptStr sr.text_content then 0
  else
    let text := sr.text_content.getD ""
    let n := stepProviderCalls ai_client text + stepProviderCalls ai_client text
    let sd := analyze_sentiment ai_client b text
    match pyDictGet sd "score" (.num 0) with
    | .error _ => n
    | .ok _ =>
      match pyDictGet sd "confidence" (.num 0) with
      | .error _ => n
      | .ok _ => n + 4 * stepProviderCalls ai_client text

/-- AIEnhancedScraper.scrape_with_ai_analysis (lines 404-449) end to
    end: scrape with all extraction flags on, then the AI phase. -/
def scrape_with_ai_analysis (respect_robots ai_client : Bool) (env : WebEnv)
    (b : ProviderBehavior) (url : String) : ScrapingResult × AIAnalysisResult :=
  let sr := scrape_page respect_robots env url true true true true
  (sr, scrape_with_ai_analysis_ai ai_client b sr)

/-! ## utils.py — URL helpers used by the chatbot -/

/-- Model of urllib.parse.urlparse's scheme and netloc fields for the
    URLs this program hands it (after normalize_url every checked URL
    carries an http:// or https:// prefix): the scheme is the lowercased
    text before "://", the netloc the text after it up to the first '/',
    '?' or '#'; a URL without "://" has neither. -/
def urlparseSchemeNetloc (url : String) : String × String :=
  match splitFirstOn url.data "://".data with
  | none => ("", "")
  | some (s, rest) =>
    (String.mk (s.map Char.toLower),
     String.mk (rest.takeWhile (fun c => c != '/' && c != '?' && c != '#')))

/-- utils.normalize_url (utils.py lines 51-72): keep an http/https URL,
    otherwise strip leading slashes and prepend https://. -/
def normalize_url (url : String) : String :=
  if url.isEmpty then url
  else if pyStartsWith url "http://" || pyStartsWith url "https://" then url
  else "https://" ++ String.mk (url.data.dropWhile (fun c => c = '/'))

/-- utils.extract_domain (utils.py lines 75-92): normalize when the
    scheme is missing, then the parsed netloc. -/
def extract_domain (url : String) : String :=
  let u := if pyStartsWith url "http://" || pyStartsWith url "https://" then url
           else normalize_url url
  (urlparseSchemeNetloc u).2

/-- utils.is_valid_url (utils.py lines 95-113): normalize when the
    scheme is missing; valid when scheme and netloc are both non-empty
    and the scheme is http or https. -/
def is_valid_url (url : String) : Bool :=
  let u := if pyStartsWith url "http://" || pyStartsWith url "https://" then url
           else normalize_url url
  let (scheme, netloc) := urlparseSchemeNetloc u
  !scheme.isEmpty && !netloc.isEmpty && (scheme = "http" || scheme = "https")

/-! ## ai_integration_guide.py — SimpleAIEnhancedScraper -/

/-- Python truthiness of a json-shaped value. -/
def pyTruthy : PyVal → Bool
  | .num q => decide (q ≠ 0)
  | .str s => !s.isEmpty
  | .bool b => b
  | .null => false
  | .list l => !l.isEmpty
  | .dict d => !d.isEmpty

/-- Availability flags computed in SimpleAIEnhancedScraper.__init__
    (ai_integration_guide.py lines 19-39): library importable and API
    key present, per provider. -/
structure SimpleAIConfig where
  openai_available : Bool
  anthropic_available : Bool

/-- Outcome of the AI block inside scrape_with_summary: both helper
    calls returned (a summary string and an analysis dict), or something
    inside the try raised with a message. -/
inductive SimpleAIOutcome where
  | ok (summary : String) (analysis : PyVal)
  | raised (msg : String)

/-- The dict scrape_with_summary returns (ai_integration_guide.py
    lines 54-63). -/
structure SummaryAnalysis where
  url : String
  scraping_successful : Bool
  title : Option String
  content_length : Nat
  links_count : Nat
  ai_summary : Option String
  ai_analysis : Option PyVal
  requires_api_key : Bool

/-- SimpleAIEnhancedScraper.scrape_with_summary (ai_integration_guide.py
    lines 41-75): scrape, record success as the absence of a truthy
    error, lengths and link counts of the truthy fields; run the AI
    block only when text is present and a provider is available, turning
    a raised error into the failure strings of lines 72-73. -/
def scrape_with_summary (respect_robots : Bool) (cfg : SimpleAIConfig) (env : WebEnv)
    (aio : SimpleAIOutcome) (url : String) : SummaryAnalysis :=
  let result := scrape_page respect_robots env url true true true true
  let base : SummaryAnalysis :=
    { url := url
      scraping_successful := !pyTruthyOptStr result.error
      title := result.title
      content_length := (result.text_content.getD "").length
      links_count := (result.links.getD []).length
      ai_summary := none
      ai_analysis := none
      requires_api_key := true }
  if pyTruthyOptStr result.text_content && (cfg.openai_available || cfg.anthropic_available) then
    match aio with
    | .ok s a =>
      { base with ai_summary := some s, ai_analysis := some a, requires_api_key := false }
    | .raised m =>
      { base with
          ai_summary := some ("AI analysis failed: " ++ m)
          ai_analysis := some (.dict [("content_type", .str "Unknown"), ("error", .str m)]) }
  else base

/-! ## chatbot.py — construction, intent classification, scrape handler -/

/-- Parameters of SimpleAIEnhancedScraper.__init__ besides self
    (ai_integration_guide.py line 19). -/
def simpleScraperInitParams : List String := ["delay"]

/-- Keyword arguments WebScrapingChatbot.__init__ passes to the
    SimpleAIEnhancedScraper constructor (chatbot.py line 34). -/
def chatbotScraperCallKeywords : List String := ["delay", "ai_provider"]

/-- Python keyword binding: a call binds only if every keyword argument
    names a parameter; an unexpected keyword raises TypeError. -/
def pyKeywordsBindOk (params kwargs : List String) : Bool :=
  kwargs.all (fun k => params.contains k)

/-- Outcome of WebScrapingChatbot.__init__. -/
inductive ChatbotInitOutcome where
  | ok (providerLowered : String)
  | typeError

/-- WebScrapingChatbot.__init__ (chatbot.py lines 31-55): lowers the
    provider name (line 33, succeeds for every string), then constructs
    SimpleAIEnhancedScraper with the keyword arguments delay and
    ai_provider (line 34); Python binds those keywords against
    SimpleAIEnhancedScraper.__init__'s parameter list before any body
    runs, raising TypeError on an unexpected keyword and aborting the
    rest of the constructor. -/
def webScrapingChatbotInit (ai_provider : String) : ChatbotInitOutcome :=
  let lowered := pyLower ai_provider
  if pyKeywordsBindOk simpleScraperInitParams chatbotScraperCallKeywords then .ok lowered
  else .typeError

/-- Intent record built by _analyze_intent (chatbot.py lines 165-169);
    the parameters dict's four possible keys are modelled as flags that
    are present iff true. -/
structure Intent where
  action : String
  urls : List String
  show_links : Bool := false
  show_images : Bool := false
  analyze_sentiment : Bool := false
  generate_summary : Bool := false

/-- Keyword groups of _analyze_intent (chatbot.py lines 172-181). -/
def scrapeKeywords : List String := ["scrape", "fetch", "get", "extract from"]

/-- Keywords routing to the analyze action. -/
def analyzeKeywords : List String := ["analyze", "analysis", "sentiment", "summary", "summarize"]

/-- Keywords routing to the show_data action. -/
def showDataKeywords : List String := ["show", "display", "list", "links", "images", "data"]

/-- Keywords routing to the help action. -/
def helpKeywords : List String := ["help", "commands", "what can you do"]

/-- Keywords routing to the stats action. -/
def statsKeywords : List String := ["stats", "statistics", "session", "summary"]

/-- Python any(word in message_lower for word in group). -/
def matchesAny (group : List String) (ml : String) : Bool :=
  group.any (fun w => strContains ml w)

/-- One match of the regex https?://[^\s]+ at the head of the input:
    the scheme prefix followed by at least one non-whitespace character,
    taken greedily.  Returns the match and the rest of the input. -/
def matchUrlAt (l : List Char) : Option (List Char × List Char) :=
  tryScheme "https://".data l <|> tryScheme "http://".data l
where
  /-- Attempt one of the two scheme alternatives. -/
  tryScheme (pre l : List Char) : Option (List Char × List Char) :=
    if pre.isPrefixOf l then
      let after := l.drop pre.length
      let body := after.takeWhile (fun c => !isPyWs c)
      if body.isEmpty then none else some (pre ++ body, after.drop body.length)
    else none

/-- Fuel-driven scan implementing re.findall for https?://[^\s]+:
    leftmost, non-overlapping matches; every step consumes at least one
    character, so fuel equal to the input length suffices. -/
def findUrlsAux : Nat → List Char → List String
  | 0, _ => []
  | _ + 1, [] => []
  | fuel + 1, c :: rest =>
    match matchUrlAt (c :: rest) with
    | some (m, rest') => String.mk m :: findUrlsAux fuel rest'
    | none => findUrlsAux fuel rest

/-- re.findall(r'https?://[^\s]+', message) (chatbot.py lines 162-163),
    applied to the original-case message. -/
def pyFindUrls (s : String) : List String :=
  findUrlsAux s.data.length s.data

/-- WebScrapingChatbot._analyze_intent (chatbot.py lines 149-193): URLs
    from the regex over the raw message; action from the first matching
    keyword group in the fixed if/elif order scrape, analyze, show_data,
    help, stats, else unknown; the four parameter flags set from the
    lowercased message independently of the action. -/
def analyze_intent (message : String) : Intent :=
  let ml := pyLower message
  let urls := pyFindUrls message
  let action :=
    if matchesAny scrapeKeywords ml then "scrape"
    else if matchesAny analyzeKeywords ml then "analyze"
    else if matchesAny showDataKeywords ml then "show_data"
    else if matchesAny helpKeywords ml then "help"
    else if matchesAny statsKeywords ml then "stats"
    else "unknown"
  { action := action
    urls := urls
    show_links := strContains ml "links"
    show_images := strContains ml "images"
    analyze_sentiment := matchesAny ["sentiment", "feeling", "emotion"] ml
    generate_summary := matchesAny ["summary", "summarize", "main points"] ml }

/-- Session counters of chatbot.py lines 37-42 (session_start carries no
    claim-relevant state and is omitted). -/
structure SessionStats where
  pages_scraped : Nat
  total_links_found : Nat
  total_content_analyzed : Nat

/-- Per-session mutable state touched by the scrape handler: the
    insertion-ordered domain cache and the counters. -/
structure ChatSession where
  scraped_data : List (String × SummaryAnalysis)
  stats : SessionStats

/-- Python dict assignment on an insertion-ordered association list,
    generic in the value type. -/
def pyDictSet {α : Type} (d : List (String × α)) (k : String) (v : α) : List (String × α) :=
  if d.any (fun kv => kv.1 = k) then d.map (fun kv => if kv.1 = k then (k, v) else kv)
  else d ++ [(k, v)]

/-- Response text composed for one URL by _handle_scrape_request
    (chatbot.py lines 239-260); the emoji prefixes and the thousands
    separators of the source's f-strings are elided, and the value of a
    dict entry is displayed through its string case (the only case the
    program produces there). -/
def scrapeResponseText (ai_available : Bool) (url : String) (result : SummaryAnalysis) : String :=
  if result.scraping_successful then
    let parts := ["Successfully scraped " ++ url,
                  "Title: " ++ (match result.title with | some t => t | none => "None")]
    let parts := if result.content_length ≠ 0 then
        parts ++ ["Content: " ++ toString result.content_length ++ " characters"] else parts
    let parts := if result.links_count ≠ 0 then
        parts ++ ["Links found: " ++ toString result.links_count] else parts
    let parts :=
      match result.ai_summary with
      | some s => if !s.isEmpty && ai_available then parts ++ ["AI Summary: " ++ s] else parts
      | none => parts
    let parts :=
      match result.ai_analysis with
      | some a =>
        if pyTruthy a && pyTruthy (pyValGetD a "content_type" .null) then
          parts ++ ["Content Type: " ++
            (match pyValGetD a "content_type" .null with | .str s => s | _ => "")]
        else parts
      | none => parts
    String.intercalate "\n" parts
  else "Failed to scrape " ++ url

/-- Body of _handle_scrape_request's per-URL loop (chatbot.py lines
    203-263): an invalid URL contributes an inline error and leaves the
    session untouched; otherwise the scheme is defaulted to https://,
    the scrape runs, the result is cached under its domain, the database
    write is attempted with every failure swallowed (no session-state
    effect), pages_scraped is incremented unconditionally, and the link
    and content counters grow by the result's truthy counts. -/
def handleScrapeUrl (respect_robots ai_available : Bool) (cfg : SimpleAIConfig)
    (env : WebEnv) (aio : SimpleAIOutcome) (st : ChatSession) (url : String) :
    ChatSession × String :=
  if !is_valid_url url then (st, "Invalid URL: " ++ url)
  else
    let url := if pyStartsWith url "http://" || pyStartsWith url "https://" then url
               else "https://" ++ url
    let result := scrape_with_summary respect_robots cfg env aio url
    let domain := extract_domain url
    let st := { st with scraped_data := pyDictSet st.scraped_data domain result }
    let st := { st with stats := { st.stats with pages_scraped := st.stats.pages_scraped + 1 } }
    let st := if result.links_count ≠ 0 then
        { st with stats :=
            { st.stats with total_links_found := st.stats.total_links_found + result.links_count } }
      else st
    let st := if result.content_length ≠ 0 then
        { st with stats :=
            { st.stats with
                total_content_analyzed := st.stats.total_content_analyzed + result.content_length } }
      else st
    (st, scrapeResponseText ai_available url result)

/-- WebScrapingChatbot._handle_scrape_request (chatbot.py lines
    195-265): fixed prompt with no URLs, otherwise the per-URL bodies
    run in order (the world supplies each scrape's environment by
    position) and their messages are joined with blank lines. -/
def handle_scrape_request (respect_robots ai_available : Bool) (cfg : SimpleAIConfig)
    (world : Nat → WebEnv × SimpleAIOutcome) (st : ChatSession) (urls : List String) :
    ChatSession × String :=
  if urls.isEmpty then
    (st, "I'd be happy to scrape a website for you! Please provide a URL. For example: 'Scrape example.com' or 'Scrape https://example.com'")
  else
    let step := fun (acc : ChatSession × List String × Nat) url =>
      let (st, msgs, i) := acc
      let (env, aio) := world i
      let (st', msg) := handleScrapeUrl respect_robots ai_available cfg env aio st url
      (st', msgs ++ [msg], i + 1)
    let (st', msgs, _) := urls.foldl step (st, [], 0)
    (st', String.intercalate "\n\n" msgs)

/-! ## Predicates and fixtures used by the claims -/

/-- No Python line-boundary character occurs in the list. -/
def noLineBreakB (l : List Char) : Bool :=
  l.all (fun c => !isPyLineBreak c)

/-- No two adjacent spaces occur in the list. -/
def noDblSpaceB : List Char → Bool
  | [] => true
  | [_] => true
  | c :: d :: rest => !(c = ' ' && d = ' ') && noDblSpaceB (d :: rest)

/-- Both ends of the list, when present, are non-whitespace (the shape
    of a trimmed string). -/
def boundsNotWsB (l : List Char) : Bool :=
  (match l.head? with | none => true | some c => !isPyWs c)
    && (match l.getLast? with | none => true | some c => !isPyWs c)

/-- Shape of one cleaned chunk: non-empty, no two adjacent spaces, no
    line-boundary character, trimmed at both ends. -/
def chunkOkB (c : List Char) : Bool :=
  !c.isEmpty && noDblSpaceB c && noLineBreakB c && boundsNotWsB c

/-- The sentiment step's provider response stays inside its own
    try/except: the call raised, the text failed to parse, or it parsed
    to a JSON object.  Only a successfully parsed non-object escapes. -/
def sentimentParsesToDict (b : ProviderBehavior) : Bool :=
  match b.sentimentResp with
  | .ok (some (.dict _)) => true
  | .ok (some _) => false
  | _ => true

/-- A stored sentiment-style field is a number in the given range
    (unset fields hold no value and are acceptable). -/
def scoreFieldOkB (v : Option PyVal) (lo hi : ℚ) : Bool :=
  match v with
  | none => true
  | some (.num q) => decide (lo ≤ q) && decide (q ≤ hi)
  | some _ => false

/-- A stored category is from the fixed closed list or "Unknown". -/
def categoryFieldOkB (v : Option String) : Bool :=
  match v with
  | none => true
  | some c => contentCategories.contains c || c = "Unknown"

/-- A stored quality score lies in [0,1]. -/
def qualityFieldOkB (v : Option ℚ) : Bool :=
  match v with
  | none => true
  | some q => decide (0 ≤ q) && decide (q ≤ 1)

/-- A dict entry, when present, is a number in the given range. -/
def dictEntryInRange (d : List (String × PyVal)) (k : String) (lo hi : ℚ) : Bool :=
  match d.lookup k with
  | none => true
  | some (.num q) => decide (lo ≤ q) && decide (q ≤ hi)
  | some _ => false

/-- The sentiment response adheres to the requested schema: if it
    parsed, it is an object whose score/confidence entries are numbers
    in range. -/
def sentimentRespAdheres (b : ProviderBehavior) : Bool :=
  match b.sentimentResp with
  | .ok (some (.dict d)) =>
    dictEntryInRange d "score" (-1) 1 && dictEntryInRange d "confidence" 0 1
  | .ok (some _) => true
  | _ => true

/-- The category response adheres to the prompt's closed list. -/
def categorizeRespAdheres (b : ProviderBehavior) : Bool :=
  match b.categorizeResp with
  | .ok s => contentCategories.contains s
  | .error _ => true

/-- The quality response, when numeric, lies in [0,1]. -/
def qualityRespAdheres (b : ProviderBehavior) : Bool :=
  match b.qualityResp with
  | .ok (some q) => decide (0 ≤ q) && decide (q ≤ 1)
  | _ => true

/-- A successfully scraped page used by the concrete scenarios. -/
def srOk : ScrapingResult :=
  { url := "https://x.test", status_code := 200, title := some "T",
    text_content := some "hello world" }

/-- A provider behaviour whose sentiment response is the valid JSON
    array "[]" — json.loads succeeds, the step returns a list — while
    every other step's call would succeed. -/
def bBad : ProviderBehavior :=
  { summarizeResp := .ok "S"
    sentimentResp := .ok (some (.list []))
    categorizeResp := .ok "Technology & Science"
    entitiesResp := .ok (some emptyEntities)
    languageResp := .ok "English"
    qualityResp := .ok (some (1/2)) }

/-- A provider behaviour whose sentiment response is the JSON object
    with score 5 and confidence 2, both out of range. -/
def bScore5 : ProviderBehavior :=
  { summarizeResp := .error ()
    sentimentResp := .ok (some (.dict [("score", .num 5), ("confidence", .num 2)]))
    categorizeResp := .error ()
    entitiesResp := .error ()
    languageResp := .error ()
    qualityResp := .error () }

/-- A provider behaviour that adheres to every requested schema. -/
def bGood : ProviderBehavior :=
  { summarizeResp := .ok "a summary"
    sentimentResp := .ok (some (.dict [("score", .num 1), ("confidence", .num 1)]))
    categorizeResp := .ok "Sports"
    entitiesResp := .ok (some emptyEntities)
    languageResp := .ok "English"
    qualityResp := .ok (some 1) }

/-- A provider behaviour in which every call raises. -/
def bAllRaise : ProviderBehavior :=
  { summarizeResp := .error ()
    sentimentResp := .error ()
    categorizeResp := .error ()
    entitiesResp := .error ()
    languageResp := .error ()
    qualityResp := .error () }

/-- A world whose robots answer allows the fetch but whose GET times
    out. -/
def envFail : WebEnv := { robots := .canFetch true, transport := .timeout }

/-- The result a failed fetch produces. -/
def srErr : ScrapingResult :=
  { url := "u", status_code := 0, error := some "Failed to fetch page" }

/-- A world answering 304 Not Modified with an empty body. -/
def env304 : WebEnv := { robots := .canFetch true, transport := .response 304 [] }

/-- A fresh chat session. -/
def st0 : ChatSession := { scraped_data := [], stats := ⟨0, 0, 0⟩ }

/-- A configuration with no AI provider available. -/
def cfg0 : SimpleAIConfig := ⟨false, false⟩

/-! ## Helper lemmas -/

/-- A failed fetch makes scrape_page return the fixed failure record. -/
theorem scrape_page_fetch_none {respect : Bool} {env : WebEnv}
    (h : fetch_page respect env = none) (url : String) (f1 f2 f3 f4 : Bool) :
    scrape_page respect env url f1 f2 f3 f4
      = { url := url, status_code := 0, error := some "Failed to fetch page" } := by
  simp [scrape_page, h]

/-- A successful fetch leaves the error field unset whatever the flags. -/
theorem scrape_page_fetch_some_error {respect : Bool} {env : WebEnv} {st : Nat}
    {soup : List Node} (h : fetch_page respect env = some (st, soup))
    (url : String) (f1 f2 f3 f4 : Bool) :
    (scrape_page respect env url f1 f2 f3 f4).error = none := by
  cases f1 <;> cases f2 <;> cases f3 <;> cases f4 <;>
    simp only [scrape_page, h] <;>
    (first
      | rfl
      | (cases (extract_metadata soup).lookup "title" <;> simp))

/-- When the guard of the AI phase fires, the result is empty and no
    provider call is issued. -/
theorem aiGuardEmpty {ai_client : Bool} {b : ProviderBehavior} {sr : ScrapingResult}
    (hg : (sr.error.isSome || !ai_client || !pyTruthyOptStr sr.text_content) = true) :
    scrape_with_ai_analysis_ai ai_client b sr = {}
      ∧ scrapeAIProviderCalls ai_client b sr = 0 := by
  constructor
  · simp [scrape_with_ai_analysis_ai, hg]
  · simp [scrapeAIProviderCalls, hg]

/-! ## Claims -/

/-- C3 (confirmed): WebScrapingChatbot.__init__ passes the keyword
    argument ai_provider to SimpleAIEnhancedScraper, whose constructor
    accepts only delay, so for every provider name string the
    construction raises TypeError before any message can be processed:
    the conversational interface can never be instantiated through this
    path. -/
theorem chatbot_constructor_type_error :
    pyKeywordsBindOk simpleScraperInitParams chatbotScraperCallKeywords = false
    ∧ ∀ ai_provider : String, webScrapingChatbotInit ai_provider = .typeError := by
  exact ⟨rfl, fun _ => rfl⟩

/-- C6 (confirmed): when the scraping result carries an error, its text
    is empty or missing, or no AI client is configured, the AI phase
    returns the all-unset analysis record and issues zero provider
    calls. -/
theorem analyze_short_circuit (ai_client : Bool) (b : ProviderBehavior) (sr : ScrapingResult)
    (h : sr.error.isSome = true ∨ pyTruthyOptStr sr.text_content = false ∨ ai_client = false) :
    scrape_with_ai_analysis_ai ai_client b sr = {}
      ∧ scrapeAIProviderCalls ai_client b sr = 0 := by
  apply aiGuardEmpty
  rcases h with h | h | h <;> simp [h]

/-- Witness for C6 at a concrete input: no client configured. -/
theorem analyze_short_circuit_witness :
    scrape_with_ai_analysis_ai false bGood srOk = {}
      ∧ scrapeAIProviderCalls false bGood srOk = 0 :=
  analyze_short_circuit false bGood srOk (Or.inr (Or.inr rfl))

/-- C8 (confirmed): a ScrapingResult whose error is set never carries
    text, links or images, and the AI phase never produces a non-empty
    analysis for a result with an error or empty text. -/
theorem error_results_unpopulated :
    (∀ (respect : Bool) (env : WebEnv) (url : String) (f1 f2 f3 f4 : Bool),
      (scrape_page respect env url f1 f2 f3 f4).error.isSome = true →
        (scrape_page respect env url f1 f2 f3 f4).text_content = none
          ∧ (scrape_page respect env url f1 f2 f3 f4).links = none
          ∧ (scrape_page respect env url f1 f2 f3 f4).images = none)
    ∧ (∀ (ai_client : Bool) (b : ProviderBehavior) (sr : ScrapingResult),
      sr.error.isSome = true ∨ pyTruthyOptStr sr.text_content = false →
        scrape_with_ai_analysis_ai ai_client b sr = {}) := by
  constructor
  · intro respect env url f1 f2 f3 f4 h
    cases hf : fetch_page respect env with
    | none => rw [scrape_page_fetch_none hf]; exact ⟨rfl, rfl, rfl⟩
    | some v =>
      obtain ⟨st, soup⟩ := v
      rw [scrape_page_fetch_some_error hf url f1 f2 f3 f4] at h
      simp at h
  · intro ai_client b sr h
    refine (aiGuardEmpty ?_).1
    rcases h with h | h <;> simp [h]

/-- Witness for C8 at concrete inputs: a timed-out fetch and an
    errored result. -/
theorem error_results_unpopulated_witness :
    ((scrape_page true envFail "u" true true true true).text_content = none
      ∧ (scrape_page true envFail "u" true true true true).links = none
      ∧ (scrape_page true envFail "u" true true true true).images = none)
    ∧ scrape_with_ai_analysis_ai true bAllRaise srErr = {} :=
  ⟨error_results_unpopulated.1 true envFail "u" true true true true rfl,
   error_results_unpopulated.2 true bAllRaise srErr (Or.inl rfl)⟩

/-- C9 (confirmed): a raised error while checking robots.txt fails
    open — the gate answers allowed and the scrape behaves exactly as if
    robots had allowed it, so the result carries no error on that basis
    alone; an explicit disallow skips the fetch and the result carries
    the error. -/
theorem robots_fail_open_and_disallow :
    (∀ tr : TransportOutcome,
      check_robots_txt true { robots := .raised, transport := tr } = true)
    ∧ (∀ (tr : TransportOutcome) (url : String) (f1 f2 f3 f4 : Bool),
      scrape_page true { robots := .raised, transport := tr } url f1 f2 f3 f4
        = scrape_page true { robots := .canFetch true, transport := tr } url f1 f2 f3 f4)
    ∧ (∀ (tr : TransportOutcome) (url : String) (f1 f2 f3 f4 : Bool),
      (scrape_page true { robots := .canFetch false, transport := tr } url f1 f2 f3 f4).error
        = some "Failed to fetch page") := by
  refine ⟨fun tr => rfl, fun tr url f1 f2 f3 f4 => ?_, fun tr url f1 f2 f3 f4 => ?_⟩
  · have h : fetch_page true { robots := .raised, transport := tr }
        = fetch_page true { robots := .canFetch true, transport := tr } := rfl
    simp only [scrape_page, h]
  · have h : fetch_page true { robots := .canFetch false, transport := tr } = none := rfl
    rw [scrape_page_fetch_none h]

/-- C10 (corrected): every failing fetch — robots disallow, timeout,
    connection failure, or a 4xx/5xx final status — produces the same
    indistinguishable result: status_code 0 and the fixed error string;
    requests' raise_for_status treats only 400-599 as errors, so the
    original claim's "non-2xx" is too broad. -/
theorem fetch_failure_uniform_result :
    (∀ (env : WebEnv) (url : String) (f1 f2 f3 f4 : Bool), fetch_page true env = none →
      scrape_page true env url f1 f2 f3 f4
        = { url := url, status_code := 0, error := some "Failed to fetch page" })
    ∧ (∀ env : WebEnv,
      (env.robots = .canFetch false
        ∨ env.transport = .timeout
        ∨ env.transport = .connectionError
        ∨ (∃ s body, env.transport = .response s body ∧ 400 ≤ s ∧ s < 600)) →
      fetch_page true env = none) := by
  constructor
  · intro env url f1 f2 f3 f4 h
    exact scrape_page_fetch_none h url f1 f2 f3 f4
  · rintro ⟨rb, tr⟩ (h | h | h | ⟨s, body, h, hs1, hs2⟩) <;>
      simp_all [fetch_page, check_robots_txt]

/-- Witness for C10 at a concrete input: a timed-out fetch. -/
theorem fetch_failure_uniform_result_witness :
    scrape_page true envFail "u" true true true true
      = { url := "u", status_code := 0, error := some "Failed to fetch page" }
    ∧ fetch_page true envFail = none :=
  ⟨fetch_failure_uniform_result.1 envFail "u" true true true true rfl,
   fetch_failure_uniform_result.2 envFail (Or.inr (Or.inl rfl))⟩

/-- Counterexample to C10 as stated: a 304 final status is non-2xx, yet
    scrape_page scrapes it normally — status_code 304 and no error, not
    the uniform failure record. -/
theorem non2xx_not_always_failure :
    (scrape_page true env304 "u" true true true true).status_code = 304
    ∧ (scrape_page true env304 "u" true true true true).error = none
    ∧ ¬(200 ≤ 304 ∧ 304 < 300) :=
  ⟨rfl, rfl, by decide⟩

/-- C7 (confirmed): intent classification is a pure function of the
    message; when several keyword groups match the lowercased message,
    the action follows the fixed precedence scrape, analyze, show_data,
    help, stats, unknown; and the message
    "scrape https://x.test and analyze it" classifies as scrape with
    exactly the URL https://x.test. -/
theorem intent_precedence :
    (∀ msg : String,
      (matchesAny scrapeKeywords (pyLower msg) = true →
        (analyze_intent msg).action = "scrape")
      ∧ (matchesAny scrapeKeywords (pyLower msg) = false →
          matchesAny analyzeKeywords (pyLower msg) = true →
          (analyze_intent msg).action = "analyze")
      ∧ (matchesAny scrapeKeywords (pyLower msg) = false →
          matchesAny analyzeKeywords (pyLower msg) = false →
          matchesAny showDataKeywords (pyLower msg) = true →
          (analyze_intent msg).action = "show_data")
      ∧ (matchesAny scrapeKeywords (pyLower msg) = false →
          matchesAny analyzeKeywords (pyLower msg) = false →
          matchesAny showDataKeywords (pyLower msg) = false →
          matchesAny helpKeywords (pyLower msg) = true →
          (analyze_intent msg).action = "help")
      ∧ (matchesAny scrapeKeywords (pyLower msg) = false →
          matchesAny analyzeKeywords (pyLower msg) = false →
          matchesAny showDataKeywords (pyLower msg) = false →
          matchesAny helpKeywords (pyLower msg) = false →
          matchesAny statsKeywords (pyLower msg) = true →
          (analyze_intent msg).action = "stats")
      ∧ (matchesAny scrapeKeywords (pyLower msg) = false →
          matchesAny analyzeKeywords (pyLower msg) = false →
          matchesAny showDataKeywords (pyLower msg) = false →
          matchesAny helpKeywords (pyLower msg) = false →
          matchesAny statsKeywords (pyLower msg) = false →
          (analyze_intent msg).action = "unknown"))
    ∧ (analyze_intent "scrape https://x.test and analyze it").action = "scrape"
    ∧ (analyze_intent "scrape https://x.test and analyze it").urls = ["https://x.test"]
    ∧ matchesAny analyzeKeywords (pyLower "scrape https://x.test and analyze it") = true := by
  refine ⟨fun msg => ?_, by decide, by decide, by decide⟩
  refine ⟨fun h1 => ?_, fun h1 h2 => ?_, fun h1 h2 h3 => ?_,
          fun h1 h2 h3 h4 => ?_, fun h1 h2 h3 h4 h5 => ?_, fun h1 h2 h3 h4 h5 => ?_⟩ <;>
    simp [analyze_intent, h1] <;> simp_all

/-- Witness for C7 at a concrete input: a message matching the analyze
    group but not the scrape group routes to analyze. -/
theorem intent_precedence_witness :
    (analyze_intent "please summarize this").action = "analyze" :=
  ((intent_precedence.1 "please summarize this").2.1 (by decide) (by decide))

/-- Whatever the client, behaviour and text, the sentiment step returns
    a dict whenever the provider's parsed response stays inside the
    step's own try/except. -/
theorem analyze_sentiment_isDict (ai_client : Bool) (b : ProviderBehavior) (t : String)
    (hdict : sentimentParsesToDict b = true) :
    ∃ d, analyze_sentiment ai_client b t = .dict d := by
  unfold analyze_sentiment
  split
  · exact ⟨_, rfl⟩
  · cases hb : b.sentimentResp with
    | error e => exact ⟨_, rfl⟩
    | ok o =>
      cases o with
      | none => exact ⟨_, rfl⟩
      | some v =>
        unfold sentimentParsesToDict at hdict
        rw [hb] at hdict
        cases v with
        | dict d => exact ⟨d, rfl⟩
        | num q => simp at hdict
        | str s => simp at hdict
        | bool bb => simp at hdict
        | null => simp at hdict
        | list l => simp at hdict

/-- The sentiment dict's entries are in range when the provider's
    sentiment response adheres to the requested schema (the neutral
    defaults are in range by construction). -/
theorem sentiment_dict_entries_ok (ai_client : Bool) (b : ProviderBehavior) (t : String)
    {d : List (String × PyVal)} (hs : sentimentRespAdheres b = true)
    (hd : analyze_sentiment ai_client b t = .dict d) :
    dictEntryInRange d "score" (-1) 1 = true
      ∧ dictEntryInRange d "confidence" 0 1 = true := by
  unfold analyze_sentiment at hd
  have hneutral : ∀ dn, neutralSentiment = PyVal.dict dn →
      dictEntryInRange dn "score" (-1) 1 = true
        ∧ dictEntryInRange dn "confidence" 0 1 = true := by
    intro dn hdn
    unfold neutralSentiment at hdn
    cases hdn
    exact ⟨by decide, by decide⟩
  split at hd
  · exact hneutral d hd
  · cases hb : b.sentimentResp with
    | error e => rw [hb] at hd; exact hneutral d hd
    | ok o =>
      cases o with
      | none => rw [hb] at hd; exact hneutral d hd
      | some v =>
        rw [hb] at hd
        simp only at hd
        unfold sentimentRespAdheres at hs
        rw [hb, hd] at hs
        simp at hs
        exact ⟨hs.1, hs.2⟩

/-- A dict entry in range makes the stored get-with-zero-default field
    in range, provided zero itself is in range. -/
theorem entry_to_field (d : List (String × PyVal)) (k : String) (lo hi : ℚ)
    (h0 : scoreFieldOkB (some (.num 0)) lo hi = true)
    (h : dictEntryInRange d k lo hi = true) :
    scoreFieldOkB (some ((d.lookup k).getD (.num 0))) lo hi = true := by
  unfold dictEntryInRange at h
  cases hl : d.lookup k with
  | none => simpa [hl] using h0
  | some v => rw [hl] at h; cases v <;> simp_all [scoreFieldOkB]

/-- The stored category is always from the closed list or "Unknown"
    when the provider's category response adheres to the prompt. -/
theorem categorize_field_ok (ai_client : Bool) (b : ProviderBehavior) (text title : String)
    (hc : categorizeRespAdheres b = true) :
    categoryFieldOkB (some (categorize_content ai_client b text title)) = true := by
  unfold categorize_content
  split
  · decide
  · cases hb : b.categorizeResp with
    | error e => exact show categoryFieldOkB (some "Unknown") = true by decide
    | ok s =>
      unfold categorizeRespAdheres at hc
      rw [hb] at hc
      simp only [] at hc
      show categoryFieldOkB (some s) = true
      simp_all [categoryFieldOkB]

/-- The stored quality score is in [0,1] when the provider's quality
    response adheres (the failure default 0.0 is in range). -/
theorem quality_field_ok (ai_client : Bool) (b : ProviderBehavior) (text : String)
    (hq : qualityRespAdheres b = true) :
    qualityFieldOkB (some (analyze_content_quality ai_client b text)) = true := by
  unfold analyze_content_quality
  split
  · decide
  · cases hb : b.qualityResp with
    | error e => exact show qualityFieldOkB (some 0) = true by decide
    | ok o =>
      cases o with
      | none => exact show qualityFieldOkB (some 0) = true by decide
      | some q =>
        unfold qualityRespAdheres at hq
        rw [hb] at hq
        simp only [] at hq
        show qualityFieldOkB (some q) = true
        simpa [qualityFieldOkB] using hq

/-- When the guard passes and the sentiment data is a dict, the AI
    phase fills every field from its own step. -/
theorem ai_phase_dict {ai_client : Bool} {b : ProviderBehavior} {sr : ScrapingResult}
    {d : List (String × PyVal)}
    (hgb : (sr.error.isSome || !ai_client || !pyTruthyOptStr sr.text_content) = false)
    (hd : analyze_sentiment ai_client b (sr.text_content.getD "") = .dict d) :
    scrape_with_ai_analysis_ai ai_client b sr =
      { summary := some (summarize_content ai_client b (sr.text_content.getD ""))
        sentiment_score := some ((d.lookup "score").getD (.num 0))
        sentiment_confidence := some ((d.lookup "confidence").getD (.num 0))
        key_topics := none
        content_category := some (categorize_content ai_client b (sr.text_content.getD "")
          (sr.title.getD ""))
        extracted_entities := some (extract_entities ai_client b (sr.text_content.getD ""))
        language_detected := some (detect_language ai_client b (sr.text_content.getD ""))
        readability_score := some (analyze_content_quality ai_client b (sr.text_content.getD "")) } := by
  unfold scrape_with_ai_analysis_ai
  simp [hgb, hd, pyDictGet]

/-- When the guard passes but the sentiment data is not a dict, the
    dict.get call raises and only the summary field is filled. -/
theorem ai_phase_nondict {ai_client : Bool} {b : ProviderBehavior} {sr : ScrapingResult}
    {v : PyVal}
    (hgb : (sr.error.isSome || !ai_client || !pyTruthyOptStr sr.text_content) = false)
    (hv : analyze_sentiment ai_client b (sr.text_content.getD "") = v)
    (hnd : ∀ d, v ≠ .dict d) :
    scrape_with_ai_analysis_ai ai_client b sr =
      { summary := some (summarize_content ai_client b (sr.text_content.getD "")) } := by
  have hget : ∀ k dflt, pyDictGet v k dflt = .error () := by
    intro k dflt
    cases v with
    | dict d => exact absurd rfl (hnd d)
    | num q => rfl
    | str s => rfl
    | bool bb => rfl
    | null => rfl
    | list l => rfl
  unfold scrape_with_ai_analysis_ai
  simp [hgb, hv, hget]

/-- C1 (corrected): the six analysis steps are independently
    fault-isolated for every provider failure that raises inside the
    step itself — a raised call, a JSON parse failure, non-numeric
    quality output each degrade only their own field to its neutral
    default — PROVIDED the sentiment response does not parse to a
    non-object JSON value: under that proviso each stored field is a
    function of its own step's outcome alone, so the other steps always
    run and populate their fields. -/
theorem ai_steps_fault_isolated (b : ProviderBehavior) (sr : ScrapingResult) (t : String)
    (herr : sr.error = none) (htext : sr.text_content = some t) (hne : t.isEmpty = false)
    (hdict : sentimentParsesToDict b = true) :
    scrape_with_ai_analysis_ai true b sr =
      { summary := some (summarize_content true b t)
        sentiment_score := some (pyValGetD (analyze_sentiment true b t) "score" (.num 0))
        sentiment_confidence := some (pyValGetD (analyze_sentiment true b t) "confidence" (.num 0))
        key_topics := none
        content_category := some (categorize_content true b t (sr.title.getD ""))
        extracted_entities := some (extract_entities true b t)
        language_detected := some (detect_language true b t)
        readability_score := some (analyze_content_quality true b t) } := by
  obtain ⟨d, hd⟩ := analyze_sentiment_isDict true b t hdict
  have hgb : (sr.error.isSome || !true || !pyTruthyOptStr sr.text_content) = false := by
    rw [herr, htext]
    simp [pyTruthyOptStr, hne]
  have htext' : sr.text_content.getD "" = t := by rw [htext]; rfl
  rw [ai_phase_dict hgb (by rw [htext']; exact hd), htext', hd]
  simp [pyValGetD]

/-- Witness for C1 at a concrete input: a well-formed (if out-of-range)
    sentiment object, every other call raising. -/
theorem ai_steps_fault_isolated_witness :
    scrape_with_ai_analysis_ai true bScore5 srOk =
      { summary := some (summarize_content true bScore5 "hello world")
        sentiment_score := some (pyValGetD (analyze_sentiment true bScore5 "hello world")
          "score" (.num 0))
        sentiment_confidence := some (pyValGetD (analyze_sentiment true bScore5 "hello world")
          "confidence" (.num 0))
        key_topics := none
        content_category := some (categorize_content true bScore5 "hello world"
          (srOk.title.getD ""))
        extracted_entities := some (extract_entities true bScore5 "hello world")
        language_detected := some (detect_language true bScore5 "hello world")
        readability_score := some (analyze_content_quality true bScore5 "hello world") } :=
  ai_steps_fault_isolated bScore5 srOk "hello world" rfl rfl rfl rfl

/-- Counterexample to C1 as stated: when the sentiment provider answers
    the valid JSON array "[]", analyze_sentiment returns it (its own
    except does not fire), the orchestrator's dict.get raises, and the
    four remaining steps never run — their fields stay unset even though
    their own calls would succeed — while the sentiment fields are not
    set to the claimed neutral default either. -/
theorem sentiment_nondict_aborts_steps :
    (scrape_with_ai_analysis_ai true bBad srOk).summary = some "S"
    ∧ (scrape_with_ai_analysis_ai true bBad srOk).sentiment_score = none
    ∧ (scrape_with_ai_analysis_ai true bBad srOk).sentiment_confidence = none
    ∧ (scrape_with_ai_analysis_ai true bBad srOk).content_category = none
    ∧ (scrape_with_ai_analysis_ai true bBad srOk).extracted_entities = none
    ∧ (scrape_with_ai_analysis_ai true bBad srOk).language_detected = none
    ∧ (scrape_with_ai_analysis_ai true bBad srOk).readability_score = none
    ∧ categorize_content true bBad "hello world" "T" = "Technology & Science"
    ∧ detect_language true bBad "hello world" = "English"
    ∧ extract_entities true bBad "hello world" = emptyEntities
    ∧ analyze_content_quality true bBad "hello world" = 1 / 2 :=
  ⟨rfl, rfl, rfl, rfl, rfl, rfl, rfl, rfl, rfl, rfl, rfl⟩

/-- C4 (corrected): the code never clamps provider values, so the range
    invariants hold exactly when the provider responses adhere to the
    requested schema; the neutral defaults taken on step failure (0.0
    scores, "Unknown" category) always satisfy them. -/
theorem ai_output_ranges_under_adherence (ai_client : Bool) (b : ProviderBehavior)
    (sr : ScrapingResult)
    (hs : sentimentRespAdheres b = true) (hc : categorizeRespAdheres b = true)
    (hq : qualityRespAdheres b = true) :
    scoreFieldOkB (scrape_with_ai_analysis_ai ai_client b sr).sentiment_score (-1) 1 = true
    ∧ scoreFieldOkB (scrape_with_ai_analysis_ai ai_client b sr).sentiment_confidence 0 1 = true
    ∧ qualityFieldOkB (scrape_with_ai_analysis_ai ai_client b sr).readability_score = true
    ∧ categoryFieldOkB (scrape_with_ai_analysis_ai ai_client b sr).content_category = true := by
  cases hgb : (sr.error.isSome || !ai_client || !pyTruthyOptStr sr.text_content) with
  | true =>
    rw [(aiGuardEmpty hgb).1]
    exact ⟨rfl, rfl, rfl, rfl⟩
  | false =>
    rcases hsd : analyze_sentiment ai_client b (sr.text_content.getD "") with q | s2 | b2 | _ | l | d
    case dict =>
      rw [ai_phase_dict hgb hsd]
      obtain ⟨h1, h2⟩ := sentiment_dict_entries_ok ai_client b (sr.text_content.getD "") hs hsd
      exact ⟨entry_to_field d "score" (-1) 1 (by decide) h1,
             entry_to_field d "confidence" 0 1 (by decide) h2,
             quality_field_ok ai_client b (sr.text_content.getD "") hq,
             categorize_field_ok ai_client b (sr.text_content.getD "") (sr.title.getD "") hc⟩
    all_goals rw [ai_phase_nondict hgb hsd (by intro d h; cases h)]
    all_goals exact ⟨rfl, rfl, rfl, rfl⟩

/-- Witness for C4 at a concrete input: an adherent provider. -/
theorem ai_output_ranges_witness :
    scoreFieldOkB (scrape_with_ai_analysis_ai true bGood srOk).sentiment_score (-1) 1 = true
    ∧ scoreFieldOkB (scrape_with_ai_analysis_ai true bGood srOk).sentiment_confidence 0 1 = true
    ∧ qualityFieldOkB (scrape_with_ai_analysis_ai true bGood srOk).readability_score = true
    ∧ categoryFieldOkB (scrape_with_ai_analysis_ai true bGood srOk).content_category = true :=
  ai_output_ranges_under_adherence true bGood srOk (by decide) (by decide) (by decide)

/-- Counterexample to C4 as stated: the provider answer
    {"score": 5, "confidence": 2} is stored verbatim, so the stored
    sentiment score 5 violates the claimed range [-1, 1]. -/
theorem sentiment_score_unclamped :
    (scrape_with_ai_analysis_ai true bScore5 srOk).sentiment_score = some (.num 5)
    ∧ scoreFieldOkB (some (.num 5)) (-1) 1 = false :=
  ⟨rfl, by decide⟩

/-- A failed fetch makes scrape_with_summary return the unsuccessful
    record with zero counts and no AI fields. -/
theorem scrape_with_summary_fetch_none {respect : Bool} {cfg : SimpleAIConfig} {env : WebEnv}
    (aio : SimpleAIOutcome) (url : String) (hfail : fetch_page respect env = none) :
    scrape_with_summary respect cfg env aio url =
      { url := url, scraping_successful := false, title := none, content_length := 0,
        links_count := 0, ai_summary := none, ai_analysis := none,
        requires_api_key := true } := by
  unfold scrape_with_summary
  rw [scrape_page_fetch_none hfail]
  simp [pyTruthyOptStr]
  decide

/-- C2 (corrected): a failed scrape of a scheme-carrying valid URL does
    leave total_links_found and total_content_analyzed unchanged (the
    failed result's counts are zero), but it still increments
    pages_scraped and overwrites the per-domain cache with the failed
    result, and the reply is the failure line. -/
theorem failed_scrape_session_effects (respect ai_available : Bool) (cfg : SimpleAIConfig)
    (env : WebEnv) (aio : SimpleAIOutcome) (st : ChatSession) (url : String)
    (hscheme : (pyStartsWith url "http://" || pyStartsWith url "https://") = true)
    (hvalid : is_valid_url url = true)
    (hfail : fetch_page respect env = none) :
    handleScrapeUrl respect ai_available cfg env aio st url =
      ({ scraped_data := pyDictSet st.scraped_data (extract_domain url)
           (scrape_with_summary respect cfg env aio url)
         stats := { pages_scraped := st.stats.pages_scraped + 1
                    total_links_found := st.stats.total_links_found
                    total_content_analyzed := st.stats.total_content_analyzed } },
       "Failed to scrape " ++ url)
    ∧ (scrape_with_summary respect cfg env aio url).scraping_successful = false := by
  have hsum := @scrape_with_summary_fetch_none respect cfg env aio url hfail
  constructor
  · unfold handleScrapeUrl
    rw [hvalid, hscheme]
    simp only [Bool.not_true, Bool.false_eq_true, if_false, if_true]
    rw [hsum]
    simp [scrapeResponseText, hsum]
  · rw [hsum]

/-- Witness for C2 at a concrete input: a valid URL whose fetch times
    out, starting from a fresh session. -/
theorem failed_scrape_session_effects_witness :
    handleScrapeUrl true false cfg0 envFail (.raised "boom") st0 "https://x.test" =
      ({ scraped_data := pyDictSet st0.scraped_data (extract_domain "https://x.test")
           (scrape_with_summary true cfg0 envFail (.raised "boom") "https://x.test")
         stats := { pages_scraped := st0.stats.pages_scraped + 1
                    total_links_found := st0.stats.total_links_found
                    total_content_analyzed := st0.stats.total_content_analyzed } },
       "Failed to scrape " ++ "https://x.test")
    ∧ (scrape_with_summary true cfg0 envFail (.raised "boom") "https://x.test").scraping_successful
        = false :=
  failed_scrape_session_effects true false cfg0 envFail (.raised "boom") st0 "https://x.test"
    rfl rfl rfl

/-- Counterexample to C2 as stated: after one failed scrape from a
    fresh session, pages_scraped is 1 (not 0) and the failed result is
    cached under its domain — counters and cache do not reflect only
    successfully completed operations. -/
theorem failed_scrape_mutates_session :
    st0.stats.pages_scraped = 0
    ∧ st0.scraped_data = []
    ∧ (handleScrapeUrl true false cfg0 envFail (.raised "boom") st0
        "https://x.test").1.stats.pages_scraped = 1
    ∧ ((handleScrapeUrl true false cfg0 envFail (.raised "boom") st0
        "https://x.test").1.scraped_data.map Prod.fst) = ["x.test"]
    ∧ (scrape_with_summary true cfg0 envFail (.raised "boom")
        "https://x.test").scraping_successful = false :=
  ⟨rfl, rfl, rfl, rfl, rfl⟩

/-! ## Structural facts about the text cleaner (claim C5) -/

set_option maxHeartbeats 1600000 in
/-- No line of splitlines contains a line-boundary character. -/
theorem pySplitlines_no_break : ∀ (l : List Char), ∀ p ∈ pySplitlines l,
    ∀ c ∈ p, isPyLineBreak c = false := by
  intro l
  induction l using pySplitlines.induct with
  | case1 => intro p hp; simp [pySplitlines] at hp
  | case2 rest ih =>
    intro p hp c hc
    rw [show pySplitlines ('\r' :: '\n' :: rest) = [] :: pySplitlines rest from rfl] at hp
    rcases List.mem_cons.mp hp with h | h
    · subst h; simp at hc
    · exact ih p h c hc
  | case3 x rest hne hlb ih =>
    intro p hp c hc
    simp only [pySplitlines, hne, hlb, if_true] at hp
    rcases List.mem_cons.mp hp with h | h
    · subst h; simp at hc
    · exact ih p h c hc
  | case4 x rest hne hlb hnil ih =>
    intro p hp c hc
    simp only [pySplitlines, hne, hlb, if_false, hnil] at hp
    simp at hp
    subst hp
    rcases List.mem_singleton.mp hc with h
    subst h
    simpa using hlb
  | case5 x rest hne hlb q qs hq ih =>
    intro p hp c hc
    simp only [pySplitlines, hne, hlb, if_false, hq] at hp
    rcases List.mem_cons.mp hp with h | h
    · subst h
      rcases List.mem_cons.mp hc with h | h
      · subst h; simpa using hlb
      · exact ih q (hq ▸ List.mem_cons_self _ _) c h
    · exact ih p (hq ▸ List.mem_cons_of_mem _ h) c hc

/-- split("  ") never returns an empty piece list. -/
theorem pySplitTwoSpaces_ne_nil : ∀ l : List Char, pySplitTwoSpaces l ≠ [] := by
  intro l
  induction l using pySplitTwoSpaces.induct with
  | case1 => simp [pySplitTwoSpaces]
  | case2 c => simp [pySplitTwoSpaces]
  | case3 c d rest h ih => simp [pySplitTwoSpaces, h]
  | case4 c d rest h hnil ih => simp [pySplitTwoSpaces, h, hnil]
  | case5 c d rest h q qs hq ih => simp [pySplitTwoSpaces, h, hq]

/-- The first piece of split("  ") is empty or starts with the input's
    first character. -/
theorem pySplitTwoSpaces_head : ∀ (l : List Char) (p : List Char) (ps : List (List Char)),
    pySplitTwoSpaces l = p :: ps → p = [] ∨ ∃ c p' l', p = c :: p' ∧ l = c :: l' := by
  intro l
  induction l using pySplitTwoSpaces.induct with
  | case1 =>
    intro p ps h
    simp [pySplitTwoSpaces] at h
    exact Or.inl h.1
  | case2 c =>
    intro p ps h
    simp [pySplitTwoSpaces] at h
    exact Or.inr ⟨c, [], [], h.1.symm, rfl⟩
  | case3 c d rest h ih =>
    intro p ps hp
    simp only [pySplitTwoSpaces, if_pos h] at hp
    injection hp with h1 h2
    exact Or.inl h1.symm
  | case4 c d rest h hnil ih =>
    intro p ps hp
    simp only [pySplitTwoSpaces, if_neg h, hnil] at hp
    simp at hp
    exact Or.inr ⟨c, [], d :: rest, hp.1.symm, rfl⟩
  | case5 c d rest h q qs hq ih =>
    intro p ps hp
    simp only [pySplitTwoSpaces, if_neg h, hq] at hp
    rw [List.cons.injEq] at hp
    exact Or.inr ⟨c, q, d :: rest, hp.1.symm, rfl⟩

/-- Characters of split("  ") pieces come from the input. -/
theorem mem_pySplitTwoSpaces : ∀ (l : List Char), ∀ p ∈ pySplitTwoSpaces l,
    ∀ c ∈ p, c ∈ l := by
  intro l
  induction l using pySplitTwoSpaces.induct with
  | case1 =>
    intro p hp c hc
    simp [pySplitTwoSpaces] at hp
    subst hp; simp at hc
  | case2 x =>
    intro p hp c hc
    simp [pySplitTwoSpaces] at hp
    subst hp; simpa using hc
  | case3 x d rest h ih =>
    intro p hp c hc
    simp only [pySplitTwoSpaces, if_pos h] at hp
    rcases List.mem_cons.mp hp with h' | h'
    · subst h'; simp at hc
    · exact List.mem_cons_of_mem _ (List.mem_cons_of_mem _ (ih p h' c hc))
  | case4 x d rest h hnil ih =>
    intro p hp c hc
    simp only [pySplitTwoSpaces, if_neg h, hnil] at hp
    simp at hp
    subst hp
    rcases List.mem_singleton.mp hc with h'
    subst h'
    exact List.mem_cons_self _ _
  | case5 x d rest h q qs hq ih =>
    intro p hp c hc
    simp only [pySplitTwoSpaces, if_neg h, hq] at hp
    rcases List.mem_cons.mp hp with h' | h'
    · subst h'
      rcases List.mem_cons.mp hc with h' | h'
      · subst h'; exact List.mem_cons_self _ _
      · exact List.mem_cons_of_mem _ (ih q (hq ▸ List.mem_cons_self _ _) c h')
    · exact List.mem_cons_of_mem _ (ih p (hq ▸ List.mem_cons_of_mem _ h') c hc)

/-- noDblSpaceB is preserved when the head is dropped. -/
theorem noDblSpaceB_tail {c : Char} {rest : List Char}
    (h : noDblSpaceB (c :: rest) = true) : noDblSpaceB rest = true := by
  cases rest with
  | nil => rfl
  | cons d r =>
    have := h
    simp only [noDblSpaceB, Bool.and_eq_true] at this
    exact this.2

/-- No piece of split("  ") contains two adjacent spaces. -/
theorem pySplitTwoSpaces_noDbl : ∀ (l : List Char), ∀ p ∈ pySplitTwoSpaces l,
    noDblSpaceB p = true := by
  intro l
  induction l using pySplitTwoSpaces.induct with
  | case1 =>
    intro p hp
    simp [pySplitTwoSpaces] at hp
    subst hp; rfl
  | case2 x =>
    intro p hp
    simp [pySplitTwoSpaces] at hp
    subst hp; rfl
  | case3 x d rest h ih =>
    intro p hp
    simp only [pySplitTwoSpaces, if_pos h] at hp
    rcases List.mem_cons.mp hp with h' | h'
    · subst h'; rfl
    · exact ih p h'
  | case4 x d rest h hnil ih =>
    intro p hp
    simp only [pySplitTwoSpaces, if_neg h, hnil] at hp
    simp at hp
    subst hp; rfl
  | case5 x d rest h q qs hq ih =>
    intro p hp
    simp only [pySplitTwoSpaces, if_neg h, hq] at hp
    rcases List.mem_cons.mp hp with h' | h'
    · subst h'
      have hqok : noDblSpaceB q = true := ih q (hq ▸ List.mem_cons_self _ _)
      cases q with
      | nil => rfl
      | cons e q' =>
        have hed : e = d := by
          rcases pySplitTwoSpaces_head (d :: rest) (e :: q') qs hq with h' | ⟨c', p', l', hpq, hdl⟩
          · exact absurd h' (List.cons_ne_nil _ _)
          · rw [List.cons.injEq] at hpq hdl
            rw [hpq.1, hdl.1]
        simp only [noDblSpaceB, Bool.and_eq_true]
        refine ⟨?_, hqok⟩
        subst hed
        by_cases hx : x = ' '
        · subst hx
          have : ¬ e = ' ' := fun he => h ⟨rfl, he⟩
          simp [this]
        · simp [hx]
    · exact ih p (hq ▸ List.mem_cons_of_mem _ h')

/-- Membership survives dropTrailingWs. -/
theorem mem_dropTrailingWs {c : Char} : ∀ (l : List Char), c ∈ dropTrailingWs l → c ∈ l
  | [], h => by simp [dropTrailingWs] at h
  | x :: xs, h => by
    simp only [dropTrailingWs] at h
    split at h
    · simp at h
    · rcases List.mem_cons.mp h with h | h
      · exact h ▸ List.mem_cons_self _ _
      · exact List.mem_cons_of_mem _ (mem_dropTrailingWs xs h)

/-- Membership survives strip. -/
theorem mem_pyStripL {c : Char} {l : List Char} (h : c ∈ pyStripL l) : c ∈ l :=
  (List.dropWhile_sublist isPyWs).subset (mem_dropTrailingWs _ h)

/-- dropTrailingWs either empties a cons cell or keeps its head. -/
theorem dropTrailingWs_shape : ∀ (x : Char) (xs : List Char),
    dropTrailingWs (x :: xs) = [] ∨ dropTrailingWs (x :: xs) = x :: dropTrailingWs xs := by
  intro x xs
  simp only [dropTrailingWs]
  split
  · exact Or.inl rfl
  · exact Or.inr rfl

/-- noDblSpaceB survives dropTrailingWs. -/
theorem noDbl_dropTrailingWs : ∀ (l : List Char),
    noDblSpaceB l = true → noDblSpaceB (dropTrailingWs l) = true
  | [], _ => rfl
  | x :: xs, h => by
    rcases dropTrailingWs_shape x xs with hs | hs
    · rw [hs]; rfl
    · rw [hs]
      have hxs := noDbl_dropTrailingWs xs (noDblSpaceB_tail h)
      cases he : dropTrailingWs xs with
      | nil => rfl
      | cons e r' =>
        rw [he] at hxs
        simp only [noDblSpaceB, Bool.and_eq_true]
        refine ⟨?_, hxs⟩
        cases xs with
        | nil => simp [dropTrailingWs] at he
        | cons y ys =>
          have hey : e = y := by
            rcases dropTrailingWs_shape y ys with h2 | h2
            · rw [h2] at he; exact absurd he.symm (List.cons_ne_nil _ _)
            · rw [h2] at he
              exact (List.cons.injEq .. ▸ he).1.symm
          subst hey
          have := h
          simp only [noDblSpaceB, Bool.and_eq_true] at this
          exact this.1

/-- noDblSpaceB survives a leading whitespace drop. -/
theorem noDbl_dropWhile : ∀ (l : List Char),
    noDblSpaceB l = true → noDblSpaceB (l.dropWhile isPyWs) = true
  | [], _ => rfl
  | x :: xs, h => by
    rw [List.dropWhile_cons]
    split
    · exact noDbl_dropWhile xs (noDblSpaceB_tail h)
    · exact h

/-- noDblSpaceB survives strip. -/
theorem noDbl_pyStripL (l : List Char) (h : noDblSpaceB l = true) :
    noDblSpaceB (pyStripL l) = true :=
  noDbl_dropTrailingWs _ (noDbl_dropWhile l h)

/-- The last character left by dropTrailingWs is never whitespace. -/
theorem dropTrailingWs_last : ∀ (l : List Char) (c : Char),
    (dropTrailingWs l).getLast? = some c → isPyWs c = false
  | [], c, h => by simp [dropTrailingWs] at h
  | x :: xs, c, h => by
    rcases dropTrailingWs_shape x xs with hs | hs
    · rw [hs] at h; simp at h
    · rw [hs] at h
      cases he : dropTrailingWs xs with
      | nil =>
        rw [he] at h
        simp at h
        subst h
        by_contra hws
        simp only [Bool.not_eq_false] at hws
        have : dropTrailingWs (x :: xs) = [] := by
          simp only [dropTrailingWs, he]
          simp [hws]
        rw [this] at hs
        exact absurd hs.symm (List.cons_ne_nil _ _)
      | cons e r' =>
        rw [he] at h
        rw [List.getLast?_cons_cons] at h
        exact dropTrailingWs_last xs c (he ▸ h)

/-- A stripped list is trimmed: neither end is whitespace. -/
theorem pyStripL_bounds (l : List Char) : boundsNotWsB (pyStripL l) = true := by
  unfold boundsNotWsB
  rw [Bool.and_eq_true]
  constructor
  · cases hh : (pyStripL l).head? with
    | none => rfl
    | some c =>
      unfold pyStripL at hh
      have hdw := List.head?_dropWhile_not isPyWs l
      cases hd : l.dropWhile isPyWs with
      | nil => rw [hd] at hh; simp [dropTrailingWs] at hh
      | cons x xs =>
        rw [hd] at hh hdw
        rcases dropTrailingWs_shape x xs with hs | hs
        · rw [hs] at hh; simp at hh
        · rw [hs] at hh
          simp only [List.head?_cons, Option.some.injEq] at hh hdw
          subst hh
          simpa using hdw
  · cases hh : (pyStripL l).getLast? with
    | none => rfl
    | some c =>
      have := dropTrailingWs_last (l.dropWhile isPyWs) c hh
      simp [this]

/-- Unpack a chunk's shape properties. -/
theorem chunkOk_parts {c : List Char} (h : chunkOkB c = true) :
    c ≠ [] ∧ noDblSpaceB c = true ∧ noLineBreakB c = true ∧ boundsNotWsB c = true := by
  simp only [chunkOkB, Bool.and_eq_true] at h
  refine ⟨?_, h.1.1.2, h.1.2, h.2⟩
  have := h.1.1.1
  cases c with
  | nil => simp at this
  | cons x xs => exact List.cons_ne_nil _ _

/-- A trimmed non-empty list never starts with a space. -/
theorem bounds_head_ne_space {c : List Char} {x : Char}
    (h : boundsNotWsB c = true) (hx : c.head? = some x) : x ≠ ' ' := by
  unfold boundsNotWsB at h
  rw [Bool.and_eq_true, hx] at h
  intro he
  subst he
  simpa [isPyWs] using h.1

/-- A trimmed non-empty list never ends with a space. -/
theorem bounds_last_ne_space {c : List Char} {x : Char}
    (h : boundsNotWsB c = true) (hx : c.getLast? = some x) : x ≠ ' ' := by
  unfold boundsNotWsB at h
  rw [Bool.and_eq_true, hx] at h
  intro he
  subst he
  simpa [isPyWs] using h.2

/-- Appending lists free of double spaces stays free of them when the
    seam does not create one. -/
theorem noDbl_append : ∀ (a b : List Char),
    noDblSpaceB a = true → noDblSpaceB b = true →
    (a.getLast? = some ' ' → b.head? = some ' ' → False) →
    noDblSpaceB (a ++ b) = true
  | [], b, _, hb, _ => hb
  | [x], b, _, hb, hm => by
    cases b with
    | nil => rfl
    | cons y b' =>
      simp only [List.cons_append, List.nil_append, noDblSpaceB, Bool.and_eq_true]
      refine ⟨?_, hb⟩
      by_cases hx : x = ' '
      · by_cases hy : y = ' '
        · exact absurd (hm (by simp [hx]) (by simp [hy])) id
        · simp [hy]
      · simp [hx]
  | x :: y :: a', b, ha, hb, hm => by
    simp only [List.cons_append, noDblSpaceB, Bool.and_eq_true]
    have ha' := ha
    simp only [noDblSpaceB, Bool.and_eq_true] at ha'
    refine ⟨ha'.1, ?_⟩
    have : (y :: a').getLast? = (x :: y :: a').getLast? := (List.getLast?_cons_cons ..).symm
    exact noDbl_append (y :: a') b ha'.2 hb (fun h1 h2 => hm (this ▸ h1) h2)

/-- Joining non-empty chunks never yields the empty list. -/
theorem pyJoinSp_ne_nil : ∀ (cs : List (List Char)), cs ≠ [] →
    (∀ c ∈ cs, chunkOkB c = true) → pyJoinSp cs ≠ []
  | [], h, _ => absurd rfl h
  | [p], _, hok => by
    have := (chunkOk_parts (hok p (List.mem_singleton.mpr rfl))).1
    simpa [pyJoinSp] using this
  | p :: q :: ps, _, _ => by
    simp [pyJoinSp]

/-- The join of a non-empty chunk list starts with its first chunk. -/
theorem pyJoinSp_head : ∀ (p : List Char) (ps : List (List Char)), p ≠ [] →
    (pyJoinSp (p :: ps)).head? = p.head? := by
  intro p ps hp
  cases ps with
  | nil => rfl
  | cons q qs =>
    show (p ++ ' ' :: pyJoinSp (q :: qs)).head? = p.head?
    rw [List.head?_append]
    cases p with
    | nil => exact absurd rfl hp
    | cons x xs => rfl

/-- Joining well-shaped chunks with single spaces yields a string with
    no line break, no double space, and trimmed ends. -/
theorem pyJoinSp_ok : ∀ (cs : List (List Char)), (∀ c ∈ cs, chunkOkB c = true) →
    noLineBreakB (pyJoinSp cs) = true ∧ noDblSpaceB (pyJoinSp cs) = true
      ∧ boundsNotWsB (pyJoinSp cs) = true
  | [], _ => ⟨rfl, rfl, rfl⟩
  | [p], hok => by
    obtain ⟨_, h2, h3, h4⟩ := chunkOk_parts (hok p (List.mem_singleton.mpr rfl))
    exact ⟨h3, h2, h4⟩
  | p :: q :: ps, hok => by
    obtain ⟨hpne, hpdbl, hplb, hpbd⟩ := chunkOk_parts (hok p (List.mem_cons_self _ _))
    have hoktail : ∀ c ∈ q :: ps, chunkOkB c = true :=
      fun c hc => hok c (List.mem_cons_of_mem _ hc)
    obtain ⟨hJlb, hJdbl, hJbd⟩ := pyJoinSp_ok (q :: ps) hoktail
    have hJne : pyJoinSp (q :: ps) ≠ [] :=
      pyJoinSp_ne_nil (q :: ps) (List.cons_ne_nil _ _) hoktail
    have hqne := (chunkOk_parts (hoktail q (List.mem_cons_self _ _))).1
    have hJhead : (pyJoinSp (q :: ps)).head? = q.head? := pyJoinSp_head q ps hqne
    show noLineBreakB (p ++ ' ' :: pyJoinSp (q :: ps)) = true
      ∧ noDblSpaceB (p ++ ' ' :: pyJoinSp (q :: ps)) = true
      ∧ boundsNotWsB (p ++ ' ' :: pyJoinSp (q :: ps)) = true
    refine ⟨?_, ?_, ?_⟩
    · unfold noLineBreakB at hplb hJlb ⊢
      rw [List.all_append, hplb, List.all_cons, hJlb]
      decide
    · apply noDbl_append p _ hpdbl
      · cases hJ : pyJoinSp (q :: ps) with
        | nil => exact absurd hJ hJne
        | cons j J' =>
          cases q with
          | nil => exact absurd rfl hqne
          | cons qc q' =>
            have : j = qc := by
              rw [hJ] at hJhead
              simpa using hJhead
            subst this
            have hjne : ¬ j = ' ' :=
              bounds_head_ne_space
                (chunkOk_parts (hoktail (j :: q') (List.mem_cons_self _ _))).2.2.2 rfl
            simp only [noDblSpaceB, Bool.and_eq_true]
            rw [hJ] at hJdbl
            exact ⟨by simp [hjne], hJdbl⟩
      · intro h1 h2
        exact bounds_last_ne_space hpbd h1 rfl
    · unfold boundsNotWsB
      rw [Bool.and_eq_true]
      constructor
      · have hhd : (p ++ ' ' :: pyJoinSp (q :: ps)).head? = p.head? := by
          rw [List.head?_append]
          cases p with
          | nil => exact absurd rfl hpne
          | cons x xs => rfl
        rw [hhd]
        cases hph : p.head? with
        | none => rfl
        | some x =>
          unfold boundsNotWsB at hpbd
          rw [Bool.and_eq_true, hph] at hpbd
          simpa using hpbd.1
      · have hlt : (p ++ ' ' :: pyJoinSp (q :: ps)).getLast? = (pyJoinSp (q :: ps)).getLast? := by
          rw [List.getLast?_append_of_ne_nil _ (List.cons_ne_nil _ _)]
          cases hJ : pyJoinSp (q :: ps) with
          | nil => exact absurd hJ hJne
          | cons j J' => rw [List.getLast?_cons_cons]
        rw [hlt]
        unfold boundsNotWsB at hJbd
        rw [Bool.and_eq_true] at hJbd
        exact hJbd.2

/-- Every chunk the cleaner feeds to the join is well shaped. -/
theorem cleanScrapedText_chunks_ok (t : List Char) :
    ∀ c ∈ (((((pySplitlines t).map pyStripL).map pySplitTwoSpaces).flatten).map
      pyStripL).filter (fun c => !c.isEmpty), chunkOkB c = true := by
  intro c hc
  rw [List.mem_filter] at hc
  obtain ⟨hcm, hcne⟩ := hc
  rw [List.mem_map] at hcm
  obtain ⟨x, hx, rfl⟩ := hcm
  rw [List.mem_flatten] at hx
  obtain ⟨pieces, hpieces, hxp⟩ := hx
  rw [List.mem_map] at hpieces
  obtain ⟨line', hline', rfl⟩ := hpieces
  rw [List.mem_map] at hline'
  obtain ⟨line, hline, rfl⟩ := hline'
  unfold chunkOkB
  rw [Bool.and_eq_true, Bool.and_eq_true, Bool.and_eq_true]
  refine ⟨⟨⟨hcne, ?_⟩, ?_⟩, pyStripL_bounds x⟩
  · exact noDbl_pyStripL x (pySplitTwoSpaces_noDbl (pyStripL line) x hxp)
  · unfold noLineBreakB
    rw [List.all_eq_true]
    intro ch hch
    have h1 : ch ∈ x := mem_pyStripL hch
    have h2 : ch ∈ pyStripL line := mem_pySplitTwoSpaces (pyStripL line) x hxp ch h1
    have h3 : ch ∈ line := mem_pyStripL h2
    rw [pySplitlines_no_break t line hline ch h3]
    rfl

/-- The cleaner's output has no line break, no double space, and
    trimmed ends, whatever the input text. -/
theorem cleanScrapedText_ok (t : List Char) :
    noLineBreakB (cleanScrapedText t) = true ∧ noDblSpaceB (cleanScrapedText t) = true
      ∧ boundsNotWsB (cleanScrapedText t) = true :=
  pyJoinSp_ok _ (cleanScrapedText_chunks_ok t)

/-- C5 (corrected): the extractor strips script/style and produces text
    with no line-boundary character, no two adjacent spaces, and
    trimmed ends — newlines and runs of two or more spaces collapse to
    single spaces, as the concrete conjunct shows — but whitespace other
    than space pairs inside a line (a tab between words) is preserved
    rather than collapsed. -/
theorem extract_text_cleaning_shape :
    (∀ soup : List Node,
      noLineBreakB (extract_text soup true true).data = true
      ∧ noDblSpaceB (extract_text soup true true).data = true
      ∧ boundsNotWsB (extract_text soup true true).data = true)
    ∧ extract_text [Node.text "a \n  b   c"] true true = "a b c"
    ∧ extract_text [Node.elem "script" [] [Node.text "var x = 1;"], Node.text " hi "]
        true true = "hi" :=
  ⟨fun soup => cleanScrapedText_ok (nodesText (stripScriptStyleList soup)), rfl, rfl⟩

/-- Counterexample to C5 as stated: the extracted text of a page whose
    visible text is "a\tb" keeps the tab, whereas collapsing every run
    of whitespace to a single space (the claim's words, specCollapseWs)
    would give "a b". -/
theorem extract_text_keeps_tab :
    extract_text [Node.text "a\tb"] true true = "a\tb"
    ∧ specCollapseWs "a\tb" = "a b"
    ∧ ("a\tb" : String) ≠ "a b" :=
  ⟨rfl, rfl, by decide⟩

end WebScrape
